import Mathlib

/-!
Verification of the MQTT vacuum camera integration: firmware classification,
the MQTT connector's message demultiplexer and map-payload cache, the go-to
command dispatcher and the options migration, shallowly embedded from the
Python sources in `custom_components/mqtt_vacuum_camera` and
`custom_components/valetudo_vacuum_camera`.
-/

namespace MqttVacuum

/-- Python `str` applied to an optional string: `str(None)` is the string
`"None"`, `str(s)` is `s` itself. -/
def pyStr : Option String → String
  | none => "None"
  | some s => s

/-- The Python exceptions the embedded code can raise. -/
inductive PyError where
  | attributeError
  | typeError
  | indexError
  | unicodeDecodeError
deriving Repr, DecidableEq

/-- A device-registry entry (`homeassistant` `DeviceEntry`), restricted to the
single field the embedded code reads. -/
structure DeviceEntry where
  sw_version : Option String
deriving Repr, DecidableEq

/-- Python `str.lower()` (ASCII case folding, which is all the embedded code's
`"valetudo"` comparison exercises). -/
def pyLower (s : String) : String :=
  String.mk (s.data.map Char.toLower)

/-- Does the char list `l` begin with the char list `pre`? -/
def charListStartsWith : List Char → List Char → Bool
  | _, [] => true
  | [], _ :: _ => false
  | c :: cs, d :: ds => c == d && charListStartsWith cs ds

/-- Python `s.startswith(pre)`. -/
def pyStartsWith (s pre : String) : Bool :=
  charListStartsWith s.data pre.data

/-- Model of `common.py` `is_rand256_vacuum`: the vacuum runs Rand256 firmware unless
`str(sw_version).lower()` begins with `"valetudo"` (Hypfer / Valetudo). -/
def is_rand256_vacuum (vacuum_device : DeviceEntry) : Bool :=
  let sof_version := pyStr vacuum_device.sw_version
  if pyStartsWith (pyLower sof_version) "valetudo" then false else true

/-- Is `b` a UTF-8 continuation byte (`0x80..0xBF`)? -/
def utf8Cont (b : Nat) : Bool :=
  decide (0x80 ≤ b ∧ b ≤ 0xBF)

/-- Admissible second byte of a three-byte UTF-8 sequence led by `b`
(excluding overlong encodings and surrogates, as Python's strict decoder does). -/
def utf8Cont3 (b c1 : Nat) : Bool :=
  if b = 0xE0 then decide (0xA0 ≤ c1 ∧ c1 ≤ 0xBF)
  else if b = 0xED then decide (0x80 ≤ c1 ∧ c1 ≤ 0x9F)
  else utf8Cont c1

/-- Admissible second byte of a four-byte UTF-8 sequence led by `b`
(excluding overlong encodings and codepoints above `0x10FFFF`). -/
def utf8Cont4 (b c1 : Nat) : Bool :=
  if b = 0xF0 then decide (0x90 ≤ c1 ∧ c1 ≤ 0xBF)
  else if b = 0xF4 then decide (0x80 ≤ c1 ∧ c1 ≤ 0x8F)
  else utf8Cont c1

/-- Strict UTF-8 decoding of a byte list, as Python's `bytes.decode(_, "utf-8")`:
`none` models a raised `UnicodeDecodeError`. -/
def utf8Decode : List Nat → Option (List Char)
  | [] => some []
  | b :: rest =>
    if b < 0x80 then
      (utf8Decode rest).map (fun cs => Char.ofNat b :: cs)
    else if 0xC2 ≤ b ∧ b ≤ 0xDF then
      match rest with
      | c1 :: rest1 =>
        if utf8Cont c1 then
          (utf8Decode rest1).map
            (fun cs => Char.ofNat ((b - 0xC0) * 0x40 + (c1 - 0x80)) :: cs)
        else none
      | [] => none
    else if 0xE0 ≤ b ∧ b ≤ 0xEF then
      match rest with
      | c1 :: c2 :: rest2 =>
        if utf8Cont3 b c1 && utf8Cont c2 then
          (utf8Decode rest2).map
            (fun cs =>
              Char.ofNat ((b - 0xE0) * 0x1000 + (c1 - 0x80) * 0x40 + (c2 - 0x80)) :: cs)
        else none
      | _ => none
    else if 0xF0 ≤ b ∧ b ≤ 0xF4 then
      match rest with
      | c1 :: c2 :: c3 :: rest3 =>
        if utf8Cont4 b c1 && utf8Cont c2 && utf8Cont c3 then
          (utf8Decode rest3).map
            (fun cs =>
              Char.ofNat
                ((b - 0xF0) * 0x40000 + (c1 - 0x80) * 0x1000
                  + (c2 - 0x80) * 0x40 + (c3 - 0x80)) :: cs)
        else none
      | _ => none
    else none

/-- Python `bytes.decode(p, "utf-8")` producing a string; `none` models a raised
`UnicodeDecodeError`. -/
def bytesDecodeUtf8 (p : List Nat) : Option String :=
  (utf8Decode p).map (fun cs => String.mk cs)

/-- An inbound MQTT message as handed to `on_message_callback`: its topic and
its payload bytes. -/
structure Msg where
  topic : String
  payload : List Nat
deriving Repr, DecidableEq

/-- The mutable attributes of `ValetudoConnector` that `on_message_callback`,
`update_data` and the accessors touch (`connector.py`). -/
structure ConnState where
  rcv_topic : Option String
  payload : Option (List Nat)
  img_payload : Option (List Nat)
  mqtt_vac_stat : Option String
  mqtt_vac_err : Option String
  data_in : Bool
deriving Repr, DecidableEq

/-- The connector's state right after `__init__` (`connector.py` lines 30-36). -/
def initConnState : ConnState :=
  { rcv_topic := none, payload := none, img_payload := none,
    mqtt_vac_stat := none, mqtt_vac_err := none, data_in := false }

/-- The map-data topic of a vacuum with base topic `base` (`connector.py`). -/
def map_data_topic (base : String) : String :=
  base ++ "/MapData/map-data-hass"

/-- The status topic of a vacuum with base topic `base` (`connector.py`). -/
def status_topic (base : String) : String :=
  base ++ "/StatusStateAttribute/status"

/-- The error-description topic of a vacuum with base topic `base`
(`connector.py`). -/
def error_topic (base : String) : String :=
  base ++ "/StatusStateAttribute/error_description"

/-- Model of `ValetudoConnector.on_message_callback`: `base` is `self._mqtt_topic`, `s`
the connector's state before the call.  `Except.error` models an exception
escaping the callback (Python `bytes.decode(_, "utf-8")` raises
`UnicodeDecodeError` on invalid bytes; the source has no handler for it).
The status branch decodes only when the payload is truthy (non-empty); the
error branch decodes unconditionally. -/
def on_message_callback (base : String) (s : ConnState) (msg : Msg) :
    Except PyError ConnState :=
  let s1 := { s with rcv_topic := some msg.topic }
  if msg.topic = map_data_topic base then
    .ok { s1 with img_payload := some msg.payload, data_in := true }
  else if msg.topic = status_topic base then
    let s2 := { s1 with payload := some msg.payload }
    if msg.payload.isEmpty then .ok s2
    else
      match bytesDecodeUtf8 msg.payload with
      | some txt => .ok { s2 with mqtt_vac_stat := some txt }
      | none => .error .unicodeDecodeError
  else if msg.topic = error_topic base then
    let s2 := { s1 with payload := some msg.payload }
    match bytesDecodeUtf8 msg.payload with
    | some txt => .ok { s2 with mqtt_vac_err := some txt }
    | none => .error .unicodeDecodeError
  else
    .ok s1

/-- Model of `ValetudoConnector.update_data`: takes the cached map payload.  The source
delegates decoding to `self._img_decoder.camera_message_received` (class
`RawToJson`, whose file is outside the staged sources); that decode step is
abstracted as the pure deterministic parameter `dec`.  Returns the state after
the call and the value the Python function returns (`none` is Python `None`,
reached by falling through when `self._img_payload` is falsy). -/
def update_data {α : Type} (dec : List Nat → Option α) (s : ConnState)
    (process : Bool) : ConnState × Option α :=
  match s.img_payload with
  | some p =>
    if ¬ p.isEmpty then
      if process then ({ s with data_in := false }, dec p)
      else ({ s with data_in := false }, none)
    else (s, none)
  | none => (s, none)

/-- Model of `ValetudoConnector.get_vacuum_status`. -/
def get_vacuum_status (s : ConnState) : Option String :=
  s.mqtt_vac_stat

/-- Model of `ValetudoConnector.get_vacuum_error`. -/
def get_vacuum_error (s : ConnState) : Option String :=
  s.mqtt_vac_err

/-- Model of `ValetudoConnector.is_data_available`. -/
def is_data_available (s : ConnState) : Bool :=
  s.data_in

/-- Feeding a sequence of broker messages to `on_message_callback` in receipt
order, stopping at the first escaping exception. -/
def processMessages (base : String) (s : ConnState) : List Msg → Except PyError ConnState
  | [] => .ok s
  | m :: ms =>
    match on_message_callback base s m with
    | .ok s1 => processMessages base s1 ms
    | .error e => .error e

/-- First-match association-list lookup, modelling a Python dict read
(`d.get(k)` / `d[k]`). -/
def alookup {V : Type} (k : String) : List (String × V) → Option V
  | [] => none
  | (k1, v) :: rest => if k1 = k then some v else alookup k rest

/-- An entity-registry entry, restricted to the fields the embedded code reads. -/
structure EntityEntry where
  entity_id : String
  device_id : Option String
  domain : String
deriving Repr, DecidableEq

/-- The device registry: device id to `DeviceEntry` (`dr.async_get(device_id)`
is `alookup`). -/
def DeviceRegistry : Type := List (String × DeviceEntry)

/-- The entity registry: `entity_reg.entities.values()` in iteration order. -/
def EntityRegistry : Type := List EntityEntry

/-- MQTT debug info: entity id to its subscription-topic keys in order
(`hass.data[...].debug_info_entities[eid]["subscriptions"].keys()`). -/
def MqttData : Type := List (String × List String)

/-- Splitting a char list at every `'/'`, keeping empty groups, as Python
`s.split("/")` does. -/
def splitCharsSlash : List Char → List (List Char)
  | [] => [[]]
  | c :: cs =>
    if c == '/' then [] :: splitCharsSlash cs
    else
      match splitCharsSlash cs with
      | g :: gs => (c :: g) :: gs
      | [] => [[c]]

/-- Python `s.split("/")`. -/
def pySplitSlash (s : String) : List String :=
  (splitCharsSlash s.data).map (fun g => String.mk g)

/-- Python `"/".join(parts)`. -/
def pyJoinSlash : List String → String
  | [] => ""
  | [s] => s
  | s :: rest => s ++ "/" ++ pyJoinSlash rest

/-- Model of `common.py` `get_vacuum_mqtt_topic` (the `mqtt_vacuum_camera` version):
takes the first subscription topic of the entity and drops the last
`/`-separated part.  A missing entity gives `AttributeError`, which the
source catches and turns into `None`; an empty subscription list raises
`IndexError` from `list(...)[0]`, which the `except AttributeError` does not
catch. -/
def get_vacuum_mqtt_topic (mqtt_data : MqttData) (vacuum_entity_id : String) :
    Except PyError (Option String) :=
  match alookup vacuum_entity_id mqtt_data with
  | none => .ok none
  | some [] => .error .indexError
  | some (full_topic :: _) =>
    .ok (some (pyJoinSlash (pySplitSlash full_topic).dropLast))

/-- Model of `common.py` `get_device_info_from_entity_id`: the first vacuum-domain
entity entry with the given entity id, resolved through the device registry;
`none` is the implicit Python `None` (no matching entry, entry without a
device id, or device id absent from the device registry). -/
def get_device_info_from_entity_id (ent_reg : EntityRegistry)
    (dev_reg : DeviceRegistry) (entity_id : String) : Option DeviceEntry :=
  match ent_reg.find? (fun e => e.entity_id == entity_id && e.domain == "vacuum") with
  | some e =>
    match e.device_id with
    | some d => alookup d dev_reg
    | none => none
  | none => none

/-- Model of `common.py` `from_device_ids_to_entity_ids`: iterates the given device
ids; for each it calls `is_rand256_vacuum(device)` before testing `if device:`,
so a device id missing from the registry raises `AttributeError`
(`None.sw_version`).  When the first device id is found it returns the entity
ids of all vacuum-domain entities linked to it (possibly several, possibly
none); an empty input list falls off the loop and returns Python `None`. -/
def from_device_ids_to_entity_ids (device_ids : List String)
    (dev_reg : DeviceRegistry) (ent_reg : EntityRegistry) :
    Except PyError (Option (List String)) :=
  match device_ids with
  | [] => .ok none
  | device_id :: _ =>
    match alookup device_id dev_reg with
    | none => .error .attributeError
    | some _ =>
      .ok (some
        ((ent_reg.filter
            (fun e => e.device_id == some device_id && e.domain == "vacuum")).map
          (fun e => e.entity_id)))

/-- JSON values, as far as the dispatched command payloads need them. -/
inductive Json where
  | str (s : String)
  | int (n : Int)
  | obj (fields : List (String × Json))

/-- The dict `generate_service_data_go_to` returns. -/
structure GoToServiceData where
  entity_id : Option (List String)
  topic : String
  payload : Json
  firmware : String

/-- Python truthiness of an optional list (`None` and `[]` are falsy). -/
def pyFalsyList {β : Type} : Option (List β) → Bool
  | none => true
  | some l => l.isEmpty

/-- Python `int(x)` for an optional integer argument: `int(None)` raises
`TypeError`.  (The source's coordinate parameters are annotated `int`; the
float-truncation behaviour of `int` is outside this integer model.) -/
def pyInt : Option Int → Except PyError Int
  | some n => .ok n
  | none => .error .typeError

/-- Hypfer go-to payload: `{"coordinates": {"x": x, "y": y}}`. -/
def hypferGoToPayload (x y : Int) : Json :=
  Json.obj [("coordinates", Json.obj [("x", Json.int x), ("y", Json.int y)])]

/-- Rand256 go-to payload by coordinates:
`{"command": "go_to", "spot_coordinates": {"x": x, "y": y}}`. -/
def randCoordsGoToPayload (x y : Int) : Json :=
  Json.obj [("command", Json.str "go_to"),
    ("spot_coordinates", Json.obj [("x", Json.int x), ("y", Json.int y)])]

/-- Rand256 go-to payload by spot: `{"command": "go_to", "spot_id": s}`. -/
def randSpotGoToPayload (s : String) : Json :=
  Json.obj [("command", Json.str "go_to"), ("spot_id", Json.str s)]

/-- Model of `common.py` `generate_service_data_go_to`.  `entity_id` and `device_id`
are the sequences the source indexes with `[0]` and iterates; `hass` is the
triple of registries.  Faithful control flow: a truthy `device_id` resolves
through `from_device_ids_to_entity_ids` (never checking how many entities came
back); otherwise a falsy `entity_id` returns `None`.  `vacuum_entity_id[0]`
raises `TypeError` on `None` and `IndexError` on an empty list; a missing
device for the first entity raises `AttributeError` inside
`is_rand256_vacuum`; `rand256_payload` is computed before `payload`, so its
`int(x)` / `int(y)` calls can raise `TypeError` even on the Hypfer branch. -/
def generate_service_data_go_to (entity_id device_id : Option (List String))
    (x y : Option Int) (spot_id : Option String) (dev_reg : DeviceRegistry)
    (ent_reg : EntityRegistry) (mqtt_data : MqttData) :
    Except PyError (Option GoToServiceData) := do
  let vacuum_entity_id : Option (List String) ←
    if ¬ pyFalsyList device_id then
      match device_id with
      | some ds => from_device_ids_to_entity_ids ds dev_reg ent_reg
      | none => pure entity_id
    else pure entity_id
  if pyFalsyList device_id ∧ pyFalsyList entity_id then
    return none
  let veid0 : String ←
    match vacuum_entity_id with
    | none => .error .typeError
    | some [] => .error .indexError
    | some (e :: _) => pure e
  let base_topic ← get_vacuum_mqtt_topic mqtt_data veid0
  let device_info ←
    match get_device_info_from_entity_id ent_reg dev_reg veid0 with
    | none => Except.error PyError.attributeError
    | some d => pure d
  let is_rand256 := is_rand256_vacuum device_info
  let topic :=
    if ¬ is_rand256 then pyStr base_topic ++ "/GoToLocationCapability/go/set"
    else pyStr base_topic ++ "/custom_command"
  let spotFalsy := match spot_id with | none => true | some sp => sp.isEmpty
  let rand256_payload : Json ←
    if spotFalsy then do
      let xi ← pyInt x
      let yi ← pyInt y
      pure (randCoordsGoToPayload xi yi)
    else pure (randSpotGoToPayload (pyStr spot_id))
  let payload : Json ←
    if ¬ is_rand256 then do
      let xi ← pyInt x
      let yi ← pyInt y
      pure (hypferGoToPayload xi yi)
    else pure rand256_payload
  return some
    { entity_id := entity_id, topic := topic, payload := payload,
      firmware := if is_rand256 then "Rand256" else "Valetudo" }

/-- The fixed update-key list of `update_options` (inline `keys_to_update` in
`valetudo_vacuum_camera/common.py`; the `mqtt_vacuum_camera` version imports
the same list as the constant `KEYS_TO_UPDATE`). -/
def keys_to_update_list : List String :=
  ["rotate_image", "margins", "aspect_ratio", "offset_top", "offset_bottom",
   "offset_left", "offset_right", "auto_zoom", "zoom_lock_ratio",
   "show_vac_status", "vac_status_size", "vac_status_position",
   "vac_status_font", "get_svg_file", "enable_www_snapshots", "color_charger",
   "color_move", "color_wall", "color_robot", "color_go_to", "color_no_go",
   "color_zone_clean", "color_background", "color_text", "alpha_charger",
   "alpha_move", "alpha_wall", "alpha_robot", "alpha_go_to", "alpha_no_go",
   "alpha_zone_clean", "alpha_background", "alpha_text", "color_room_0",
   "color_room_1", "color_room_2", "color_room_3", "color_room_4",
   "color_room_5", "color_room_6", "color_room_7", "color_room_8",
   "color_room_9", "color_room_10", "color_room_11", "color_room_12",
   "color_room_13", "color_room_14", "color_room_15", "alpha_room_0",
   "alpha_room_1", "alpha_room_2", "alpha_room_3", "alpha_room_4",
   "alpha_room_5", "alpha_room_6", "alpha_room_7", "alpha_room_8",
   "alpha_room_9", "alpha_room_10", "alpha_room_11", "alpha_room_12",
   "alpha_room_13", "alpha_room_14", "alpha_room_15"]

/-- The value `update_options` stores for key `k`: `new_options[key]` when the
key is in `new_options`, otherwise `bk_options[key]`; `none` when it is in
neither (a `KeyError`). -/
def optPick {V : Type} (new_options bk_options : List (String × V))
    (k : String) : Option V :=
  match alookup k new_options with
  | some v => some v
  | none => alookup k bk_options

/-- The key-by-key loop body of `update_options`: builds `updated_options` in
key order, `none` as soon as a key is in neither dict (the raised `KeyError`). -/
def mergeOptions {V : Type} (keys : List String)
    (bk_options new_options : List (String × V)) : Option (List (String × V)) :=
  match keys with
  | [] => some []
  | k :: ks =>
    match optPick new_options bk_options k with
    | some v => (mergeOptions ks bk_options new_options).map (fun rest => (k, v) :: rest)
    | none => none

/-- Model of `common.py` `update_options` (both versions have the same observable
behaviour): merges the two option dicts over `keys`, and returns `bk_options`
unchanged when a `KeyError` is raised. -/
def update_options {V : Type} (keys : List String)
    (bk_options new_options : List (String × V)) : List (String × V) :=
  match mergeOptions keys bk_options new_options with
  | some updated => updated
  | none => bk_options

/-! Section: Helper lemmas -/

theorem status_topic_ne_map_data (base : String) :
    status_topic base ≠ map_data_topic base := by
  intro h
  have h2 : base.data ++ "/StatusStateAttribute/status".data
      = base.data ++ "/MapData/map-data-hass".data := congrArg String.data h
  exact absurd (List.append_cancel_left h2) (by decide)

theorem error_topic_ne_map_data (base : String) :
    error_topic base ≠ map_data_topic base := by
  intro h
  have h2 : base.data ++ "/StatusStateAttribute/error_description".data
      = base.data ++ "/MapData/map-data-hass".data := congrArg String.data h
  exact absurd (List.append_cancel_left h2) (by decide)

theorem error_topic_ne_status_topic (base : String) :
    error_topic base ≠ status_topic base := by
  intro h
  have h2 : base.data ++ "/StatusStateAttribute/error_description".data
      = base.data ++ "/StatusStateAttribute/status".data := congrArg String.data h
  exact absurd (List.append_cancel_left h2) (by decide)

theorem on_message_map_eq (base : String) (s : ConnState) (msg : Msg)
    (h : msg.topic = map_data_topic base) :
    on_message_callback base s msg =
      .ok { s with rcv_topic := some msg.topic, img_payload := some msg.payload,
                   data_in := true } := by
  simp [on_message_callback, h]

theorem charListStartsWith_iff (l pre : List Char) :
    charListStartsWith l pre = true ↔ pre <+: l := by
  induction pre generalizing l with
  | nil => simp [charListStartsWith]
  | cons d ds ih =>
    cases l with
    | nil => simp [charListStartsWith]
    | cons c cs =>
      simp only [charListStartsWith, Bool.and_eq_true, beq_iff_eq,
        List.cons_prefix_cons, ih]
      constructor
      · rintro ⟨h1, h2⟩
        exact ⟨h1.symm, h2⟩
      · rintro ⟨h1, h2⟩
        exact ⟨h1.symm, h2⟩

theorem if_bool_false_spec (b : Bool) :
    (if b then false else true) = false ↔ b = true := by
  cases b <;> simp

theorem utf8Decode_nil : utf8Decode [] = some [] := rfl

theorem bytesDecodeUtf8_nil : bytesDecodeUtf8 [] = some "" := rfl

/-! Section: C1: firmware classification -/

/-- Claim C1: `is_rand256_vacuum` returns `false` (Hypfer) exactly when the
device's reported software-version string begins, case-insensitively, with
the prefix `"valetudo"`, and `true` (Rand256) for every other software
version, including an absent one; `"Valetudo 2024.1"` yields Hypfer and
`"1.2.3-custom"` yields Rand256. -/
theorem is_rand256_vacuum_spec :
    (∀ sw : Option String,
        is_rand256_vacuum ⟨sw⟩ = false ↔
          "valetudo".data <+: (pyStr sw).data.map Char.toLower) ∧
    is_rand256_vacuum ⟨some "Valetudo 2024.1"⟩ = false ∧
    is_rand256_vacuum ⟨some "1.2.3-custom"⟩ = true ∧
    is_rand256_vacuum ⟨none⟩ = true := by
  refine ⟨fun sw => ?_, by decide, by decide, by decide⟩
  rw [← charListStartsWith_iff]
  exact if_bool_false_spec _

/-! Section: C9: empty payloads on the two text topics -/

/-- Claim C9: the connector handles empty payloads asymmetrically — an empty
payload on the status topic leaves the cached status unchanged (the truthiness
guard skips the decode), while an empty payload on the error-description topic
overwrites the cached error with the empty string. -/
theorem on_message_empty_payload_asymmetry (base : String) (s : ConnState) :
    on_message_callback base s ⟨status_topic base, []⟩ =
      .ok { s with rcv_topic := some (status_topic base), payload := some [] } ∧
    on_message_callback base s ⟨error_topic base, []⟩ =
      .ok { s with rcv_topic := some (error_topic base), payload := some [],
                   mqtt_vac_err := some "" } := by
  constructor
  · simp [on_message_callback, status_topic_ne_map_data]
  · simp [on_message_callback, error_topic_ne_map_data, error_topic_ne_status_topic,
      bytesDecodeUtf8_nil]

/-! Section: C2: invalid UTF-8 and unrecognized topics -/

/-- Claim C2 counterexample: a status message whose bytes are not valid UTF-8
(`[255]`) makes the callback raise `UnicodeDecodeError` (the claim says it is
treated as `Unrecognized` and never raises), and a message on an unrecognized
topic changes cached state (the last-received-topic field). -/
theorem on_message_invalid_utf8_cex :
    on_message_callback "tango" initConnState
        ⟨"tango/StatusStateAttribute/status", [255]⟩ =
      .error .unicodeDecodeError ∧
    on_message_callback "tango" initConnState ⟨"tango/other", [1]⟩ =
      .ok { initConnState with rcv_topic := some "tango/other" } ∧
    ({ initConnState with rcv_topic := some "tango/other" } : ConnState) ≠
      initConnState :=
  ⟨rfl, rfl, by decide⟩

/-- Claim C2 as amended: a non-empty status payload or any error-description
payload whose bytes are not valid UTF-8 makes the callback raise
`UnicodeDecodeError` to the caller; a message on a topic that is none of the
three recognized per-vacuum topics is handled without error and changes only
the last-received-topic field, none of the three caches. -/
theorem on_message_invalid_utf8_and_unknown_topic (base : String) (s : ConnState)
    (topic : String) (p : List Nat) :
    (topic = status_topic base → p ≠ [] → utf8Decode p = none →
       on_message_callback base s ⟨topic, p⟩ = .error .unicodeDecodeError) ∧
    (topic = error_topic base → utf8Decode p = none →
       on_message_callback base s ⟨topic, p⟩ = .error .unicodeDecodeError) ∧
    (topic ≠ map_data_topic base → topic ≠ status_topic base →
       topic ≠ error_topic base →
       on_message_callback base s ⟨topic, p⟩ = .ok { s with rcv_topic := some topic }) := by
  refine ⟨fun ht hp hd => ?_, fun ht hd => ?_, fun h1 h2 h3 => ?_⟩
  · cases p with
    | nil => exact absurd rfl hp
    | cons b bs =>
      simp [on_message_callback, ht, status_topic_ne_map_data, bytesDecodeUtf8, hd]
  · simp [on_message_callback, ht, error_topic_ne_map_data,
      error_topic_ne_status_topic, bytesDecodeUtf8, hd]
  · simp [on_message_callback, h1, h2, h3]

/-! Section: C8: each message touches exactly one cache -/

/-- Claim C8: a message on one of the three recognized topics updates only its
designated cache — a map-data message sets the map payload and the
data-available flag and leaves status and error unchanged; a status message
leaves the map payload, the flag and the error unchanged; an error message
leaves the map payload, the flag and the status unchanged. -/
theorem on_message_single_cache (base : String) (s : ConnState) (msg : Msg)
    (s' : ConnState) (h : on_message_callback base s msg = .ok s') :
    (msg.topic = map_data_topic base →
       s'.img_payload = some msg.payload ∧ s'.data_in = true ∧
       s'.mqtt_vac_stat = s.mqtt_vac_stat ∧ s'.mqtt_vac_err = s.mqtt_vac_err) ∧
    (msg.topic = status_topic base →
       s'.img_payload = s.img_payload ∧ s'.data_in = s.data_in ∧
       s'.mqtt_vac_err = s.mqtt_vac_err) ∧
    (msg.topic = error_topic base →
       s'.img_payload = s.img_payload ∧ s'.data_in = s.data_in ∧
       s'.mqtt_vac_stat = s.mqtt_vac_stat) := by
  refine ⟨fun ht => ?_, fun ht => ?_, fun ht => ?_⟩
  · rw [on_message_map_eq base s msg ht] at h
    cases h
    exact ⟨rfl, rfl, rfl, rfl⟩
  · simp only [on_message_callback, ht, status_topic_ne_map_data base,
      if_neg, if_pos, reduceIte] at h
    split at h
    · cases h
      exact ⟨rfl, rfl, rfl⟩
    · split at h
      · cases h
        exact ⟨rfl, rfl, rfl⟩
      · cases h
  · simp only [on_message_callback, ht, error_topic_ne_map_data base,
      error_topic_ne_status_topic base, if_neg, if_pos, if_true, reduceIte] at h
    split at h
    · cases h
      exact ⟨rfl, rfl, rfl⟩
    · cases h

/-- Witness for C8: a concrete map-data message with payload `[7]` on base
topic `"tango"` leaves the cached status and error strings unchanged. -/
theorem on_message_single_cache_witness :
    ({ initConnState with rcv_topic := some "tango/MapData/map-data-hass",
                          img_payload := some [7],
                          data_in := true } : ConnState).mqtt_vac_stat =
        initConnState.mqtt_vac_stat ∧
    ({ initConnState with rcv_topic := some "tango/MapData/map-data-hass",
                          img_payload := some [7],
                          data_in := true } : ConnState).mqtt_vac_err =
        initConnState.mqtt_vac_err :=
  ((on_message_single_cache "tango" initConnState
      ⟨"tango/MapData/map-data-hass", [7]⟩
      { initConnState with rcv_topic := some "tango/MapData/map-data-hass",
                           img_payload := some [7],
                           data_in := true } rfl).1 rfl).2.2

/-! Section: C6: semantics of taking the map payload -/

/-- Claim C6 counterexample: after a prior successful take (`update_data` with
`process = True` returning the decoded payload and clearing the flag) and no
new message, a second take returns the same decoded payload again — not
absent — because the cached payload itself is never cleared. -/
theorem update_data_second_take_cex :
    (update_data (fun p => some p)
        { initConnState with img_payload := some [1], data_in := true } true).2 =
      some [1] ∧
    (update_data (fun p => some p)
        (update_data (fun p => some p)
            { initConnState with img_payload := some [1], data_in := true } true).1
        true).2 = some [1] ∧
    (update_data (fun p => some p)
        (update_data (fun p => some p)
            { initConnState with img_payload := some [1], data_in := true } true).1
        true).2 ≠ (none : Option (List Nat)) :=
  ⟨rfl, rfl, by decide⟩

/-- Claim C6 as amended: when a (truthy) payload is cached, a take clears the
data-available flag and returns the decoded payload; a take with nothing
cached returns absent and leaves the state unchanged; but a take after a
prior successful take with no new message returns the same decoded payload
again (only the flag was cleared, the payload is retained). -/
theorem update_data_take_behaviour {α : Type} (dec : List Nat → Option α)
    (s : ConnState) :
    (∀ p, s.img_payload = some p → p ≠ [] →
        update_data dec s true = ({ s with data_in := false }, dec p) ∧
        update_data dec (update_data dec s true).1 true =
          ({ s with data_in := false }, dec p)) ∧
    (s.img_payload = none → update_data dec s true = (s, none)) := by
  constructor
  · intro p hp hne
    have hne' : p.isEmpty = false := by
      cases p with
      | nil => exact absurd rfl hne
      | cons b bs => rfl
    constructor
    · simp [update_data, hp, hne']
    · simp [update_data, hp, hne']
  · intro hp
    simp [update_data, hp]

/-! Section: C7: map messages have last-write-wins semantics -/

/-- Claim C7: after the connector processes a non-empty sequence of messages
all on the map-data topic, the cached map payload equals the payload of the
last message, the data-available flag is set, and (for a truthy payload) the
next take decodes exactly that last payload. -/
theorem processMessages_cons (base : String) (s : ConnState) (m : Msg)
    (ms : List Msg) :
    processMessages base s (m :: ms) =
      match on_message_callback base s m with
      | .ok s1 => processMessages base s1 ms
      | .error e => .error e := rfl

theorem map_payload_last_write_wins {α : Type} (dec : List Nat → Option α)
    (base : String) (s : ConnState) (msgs : List Msg) (mlast : Msg)
    (hlast : msgs.getLast? = some mlast)
    (hall : ∀ m ∈ msgs, m.topic = map_data_topic base) :
    ∃ s1, processMessages base s msgs = .ok s1 ∧
      s1.img_payload = some mlast.payload ∧ s1.data_in = true ∧
      (mlast.payload ≠ [] → (update_data dec s1 true).2 = dec mlast.payload) := by
  induction msgs generalizing s with
  | nil => cases hlast
  | cons m ms ih =>
    have hm : m.topic = map_data_topic base := hall m (List.mem_cons_self m ms)
    have hstep := on_message_map_eq base s m hm
    cases ms with
    | nil =>
      have hm2 : mlast = m := by
        simp only [List.getLast?_singleton, Option.some.injEq] at hlast
        exact hlast.symm
      subst hm2
      refine ⟨{ s with rcv_topic := some mlast.topic,
                       img_payload := some mlast.payload, data_in := true },
        ?_, rfl, rfl, fun hne => ?_⟩
      · rw [processMessages_cons, hstep]
        rfl
      · have hne' : mlast.payload.isEmpty = false := by
          cases hp : mlast.payload with
          | nil => exact absurd hp hne
          | cons b bs => rfl
        simp [update_data, hne']
    | cons m2 ms2 =>
      rw [List.getLast?_cons_cons] at hlast
      obtain ⟨s1, h1, h2, h3, h4⟩ :=
        ih { s with rcv_topic := some m.topic, img_payload := some m.payload,
                    data_in := true }
          hlast (fun m' hm' => hall m' (List.mem_cons_of_mem m hm'))
      refine ⟨s1, ?_, h2, h3, h4⟩
      rw [processMessages_cons, hstep]
      exact h1

/-- Witness for C7: two concrete map-data messages on base topic `"tango"`;
the cached payload after both is the second message's payload `[2]`. -/
theorem map_payload_last_write_wins_witness :
    ([(⟨"tango/MapData/map-data-hass", [1]⟩ : Msg),
      ⟨"tango/MapData/map-data-hass", [2]⟩].getLast? =
        some (⟨"tango/MapData/map-data-hass", [2]⟩ : Msg)) ∧
    (∀ m ∈ [(⟨"tango/MapData/map-data-hass", [1]⟩ : Msg),
            ⟨"tango/MapData/map-data-hass", [2]⟩],
        m.topic = map_data_topic "tango") ∧
    (∃ s1, processMessages "tango" initConnState
        [⟨"tango/MapData/map-data-hass", [1]⟩, ⟨"tango/MapData/map-data-hass", [2]⟩] =
          .ok s1 ∧
      s1.img_payload = some [2] ∧ s1.data_in = true ∧
      ([2] ≠ ([] : List Nat) →
        (update_data (fun p => some p) s1 true).2 = some [2])) :=
  ⟨by decide, by decide,
    map_payload_last_write_wins (fun p => some p) "tango" initConnState
      [⟨"tango/MapData/map-data-hass", [1]⟩, ⟨"tango/MapData/map-data-hass", [2]⟩]
      ⟨"tango/MapData/map-data-hass", [2]⟩ (by decide) (by decide)⟩

/-! Section: C4: Hypfer go-to dispatch -/

/-- Claim C4: a go-to dispatch that resolves to a Hypfer-firmware vacuum with
base topic `B` and coordinates `(x, y)` produces topic
`B ++ "/GoToLocationCapability/go/set"` and payload
`{"coordinates": {"x": x, "y": y}}`, with no bounds validation (the
coordinates are arbitrary integers). -/
theorem hypfer_goto_dispatch (ent_reg : EntityRegistry) (dev_reg : DeviceRegistry)
    (mqtt_data : MqttData) (eid : String) (rest ts : List String) (t : String)
    (dev : DeviceEntry) (x y : Int) (B : String) (spot_id : Option String)
    (hmq : alookup eid mqtt_data = some (t :: ts))
    (hbase : pyJoinSlash (pySplitSlash t).dropLast = B)
    (hdev : get_device_info_from_entity_id ent_reg dev_reg eid = some dev)
    (hfw : is_rand256_vacuum dev = false) :
    generate_service_data_go_to (some (eid :: rest)) none (some x) (some y) spot_id
      dev_reg ent_reg mqtt_data =
    .ok (some { entity_id := some (eid :: rest),
                topic := B ++ "/GoToLocationCapability/go/set",
                payload := hypferGoToPayload x y, firmware := "Valetudo" }) := by
  simp only [generate_service_data_go_to, get_vacuum_mqtt_topic, pyFalsyList,
    hmq, hbase, hdev, hfw, pyInt, pyStr, bind, Except.bind, pure, Except.pure]
  cases spot_id <;> simp

/-- Witness for C4: the spec's example — coordinates `(100, 200)` on base
topic `"tango"` for a Hypfer vacuum (`sw_version` `"Valetudo 2024.1"`). -/
theorem hypfer_goto_dispatch_witness :
    alookup "vacuum.t" [("vacuum.t", ["tango/state"])] = some ["tango/state"] ∧
    pyJoinSlash (pySplitSlash "tango/state").dropLast = "tango" ∧
    get_device_info_from_entity_id [⟨"vacuum.t", some "dev1", "vacuum"⟩]
      [("dev1", ⟨some "Valetudo 2024.1"⟩)] "vacuum.t" = some ⟨some "Valetudo 2024.1"⟩ ∧
    is_rand256_vacuum ⟨some "Valetudo 2024.1"⟩ = false ∧
    generate_service_data_go_to (some ["vacuum.t"]) none (some 100) (some 200) none
      [("dev1", ⟨some "Valetudo 2024.1"⟩)] [⟨"vacuum.t", some "dev1", "vacuum"⟩]
      [("vacuum.t", ["tango/state"])] =
    .ok (some { entity_id := some ["vacuum.t"],
                topic := "tango/GoToLocationCapability/go/set",
                payload := hypferGoToPayload 100 200, firmware := "Valetudo" }) :=
  ⟨rfl, rfl, rfl, rfl,
    hypfer_goto_dispatch [⟨"vacuum.t", some "dev1", "vacuum"⟩]
      [("dev1", ⟨some "Valetudo 2024.1"⟩)] [("vacuum.t", ["tango/state"])]
      "vacuum.t" [] [] "tango/state" ⟨some "Valetudo 2024.1"⟩ 100 200 "tango" none
      rfl rfl rfl rfl⟩

/-! Section: C5: Rand256 go-to dispatch -/

/-- Claim C5 counterexample: a supplied but empty spot identifier (`""`) is
falsy for the source's `if not spot_id` test, so the dispatch emits the
`spot_coordinates` payload, not the `spot_id` payload the claim requires for
every supplied spot identifier. -/
theorem rand256_empty_spot_cex :
    generate_service_data_go_to (some ["vacuum.t"]) none (some 100) (some 200)
      (some "") [("dev1", ⟨some "1.2.3-custom"⟩)]
      [⟨"vacuum.t", some "dev1", "vacuum"⟩] [("vacuum.t", ["tango/state"])] =
    .ok (some { entity_id := some ["vacuum.t"], topic := "tango/custom_command",
                payload := randCoordsGoToPayload 100 200, firmware := "Rand256" }) ∧
    randCoordsGoToPayload 100 200 ≠ randSpotGoToPayload "" :=
  ⟨rfl, by simp [randCoordsGoToPayload, randSpotGoToPayload]⟩

/-- Claim C5 as amended: a go-to dispatch resolving to a Rand256 vacuum with
base topic `B` uses topic `B ++ "/custom_command"`; a supplied **non-empty**
spot identifier gives payload `{"command": "go_to", "spot_id": sp}`, while an
absent or empty spot identifier with coordinates `(x, y)` gives payload
`{"command": "go_to", "spot_coordinates": {"x": x, "y": y}}` (an empty spot
identifier is treated as not supplied). -/
theorem rand256_goto_dispatch (ent_reg : EntityRegistry) (dev_reg : DeviceRegistry)
    (mqtt_data : MqttData) (eid : String) (rest ts : List String) (t : String)
    (dev : DeviceEntry) (B : String) (xo yo : Option Int) (x y : Int) (sp : String)
    (spot_id : Option String)
    (hmq : alookup eid mqtt_data = some (t :: ts))
    (hbase : pyJoinSlash (pySplitSlash t).dropLast = B)
    (hdev : get_device_info_from_entity_id ent_reg dev_reg eid = some dev)
    (hfw : is_rand256_vacuum dev = true) :
    (sp ≠ "" →
       generate_service_data_go_to (some (eid :: rest)) none xo yo (some sp)
         dev_reg ent_reg mqtt_data =
       .ok (some { entity_id := some (eid :: rest), topic := B ++ "/custom_command",
                   payload := randSpotGoToPayload sp, firmware := "Rand256" })) ∧
    ((spot_id = none ∨ spot_id = some "") →
       generate_service_data_go_to (some (eid :: rest)) none (some x) (some y)
         spot_id dev_reg ent_reg mqtt_data =
       .ok (some { entity_id := some (eid :: rest), topic := B ++ "/custom_command",
                   payload := randCoordsGoToPayload x y, firmware := "Rand256" })) := by
  constructor
  · intro hsp
    have hsp' : sp.isEmpty = false := by
      cases hemp : sp.isEmpty
      · rfl
      · exact absurd ((String.isEmpty_iff sp).mp hemp) hsp
    simp only [generate_service_data_go_to, get_vacuum_mqtt_topic, pyFalsyList,
      hmq, hbase, hdev, hfw, pyInt, pyStr, bind, Except.bind, pure, Except.pure]
    simp [hsp']
  · rintro (rfl | rfl) <;>
      simp only [generate_service_data_go_to, get_vacuum_mqtt_topic, pyFalsyList,
        hmq, hbase, hdev, hfw, pyInt, pyStr, bind, Except.bind, pure,
        Except.pure] <;>
      simp [show ("".isEmpty = true) from rfl]

/-- Witness for C5: the spec's example — `spot_id = "kitchen"` on base topic
`"tango"` for a Rand256 vacuum (`sw_version` `"1.2.3-custom"`). -/
theorem rand256_goto_dispatch_witness :
    is_rand256_vacuum ⟨some "1.2.3-custom"⟩ = true ∧
    generate_service_data_go_to (some ["vacuum.t"]) none none none (some "kitchen")
      [("dev1", ⟨some "1.2.3-custom"⟩)] [⟨"vacuum.t", some "dev1", "vacuum"⟩]
      [("vacuum.t", ["tango/state"])] =
    .ok (some { entity_id := some ["vacuum.t"], topic := "tango/custom_command",
                payload := randSpotGoToPayload "kitchen", firmware := "Rand256" }) :=
  ⟨rfl,
    (rand256_goto_dispatch [⟨"vacuum.t", some "dev1", "vacuum"⟩]
        [("dev1", ⟨some "1.2.3-custom"⟩)] [("vacuum.t", ["tango/state"])]
        "vacuum.t" [] [] "tango/state" ⟨some "1.2.3-custom"⟩ "tango" none none
        0 0 "kitchen" none rfl rfl rfl rfl).1 (by decide)⟩

/-! Section: C3: device-id resolution uses the first matching entity -/

/-- Claim C3 counterexample: a device mapping to two vacuum entities does not
make the dispatch fail — resolution returns both entity ids and the dispatch
silently proceeds with the first one (`vacuum.a`, base topic `"tango"`). -/
theorem goto_ambiguous_device_cex :
    from_device_ids_to_entity_ids ["dev1"] [("dev1", ⟨some "Valetudo 2024.1"⟩)]
      [⟨"vacuum.a", some "dev1", "vacuum"⟩, ⟨"vacuum.b", some "dev1", "vacuum"⟩] =
      .ok (some ["vacuum.a", "vacuum.b"]) ∧
    generate_service_data_go_to none (some ["dev1"]) (some 100) (some 200) none
      [("dev1", ⟨some "Valetudo 2024.1"⟩)]
      [⟨"vacuum.a", some "dev1", "vacuum"⟩, ⟨"vacuum.b", some "dev1", "vacuum"⟩]
      [("vacuum.a", ["tango/state"]), ("vacuum.b", ["beta/state"])] =
      .ok (some { entity_id := none, topic := "tango/GoToLocationCapability/go/set",
                  payload := hypferGoToPayload 100 200, firmware := "Valetudo" }) :=
  ⟨rfl, rfl⟩

/-- Claim C3 as amended: when the targeted device exists and maps to more than
one vacuum entity, resolution returns the whole list of matching entity ids
and the dispatch does not fail with any ambiguity error — it silently proceeds
with the first matching entity (its base topic decides the command topic). -/
theorem goto_device_first_match (dev_reg : DeviceRegistry) (ent_reg : EntityRegistry)
    (mqtt_data : MqttData) (d : String) (dev devE : DeviceEntry) (e1 e2 : String)
    (rest2 : List String) (t : String) (ts : List String) (B : String) (x y : Int)
    (hdev : alookup d dev_reg = some dev)
    (hmatch : (ent_reg.filter
        (fun e => e.device_id == some d && e.domain == "vacuum")).map
        (fun e => e.entity_id) = e1 :: e2 :: rest2)
    (hmq : alookup e1 mqtt_data = some (t :: ts))
    (hbase : pyJoinSlash (pySplitSlash t).dropLast = B)
    (hinfo : get_device_info_from_entity_id ent_reg dev_reg e1 = some devE) :
    from_device_ids_to_entity_ids [d] dev_reg ent_reg = .ok (some (e1 :: e2 :: rest2)) ∧
    ∃ sd, generate_service_data_go_to none (some [d]) (some x) (some y) none
        dev_reg ent_reg mqtt_data = .ok (some sd) ∧
      sd.topic = B ++ (if is_rand256_vacuum devE then "/custom_command"
                       else "/GoToLocationCapability/go/set") ∧
      sd.entity_id = none := by
  have hres : from_device_ids_to_entity_ids [d] dev_reg ent_reg =
      .ok (some (e1 :: e2 :: rest2)) := by
    simp [from_device_ids_to_entity_ids, hdev, hmatch]
  refine ⟨hres, ?_⟩
  cases hfw : is_rand256_vacuum devE
  · refine ⟨{ entity_id := none, topic := B ++ "/GoToLocationCapability/go/set",
              payload := hypferGoToPayload x y, firmware := "Valetudo" },
      ?_, by simp [hfw], rfl⟩
    simp only [generate_service_data_go_to, get_vacuum_mqtt_topic, pyFalsyList,
      hres, hmq, hbase, hinfo, hfw, pyInt, pyStr, bind, Except.bind, pure,
      Except.pure]
    simp
  · refine ⟨{ entity_id := none, topic := B ++ "/custom_command",
              payload := randCoordsGoToPayload x y, firmware := "Rand256" },
      ?_, by simp [hfw], rfl⟩
    simp only [generate_service_data_go_to, get_vacuum_mqtt_topic, pyFalsyList,
      hres, hmq, hbase, hinfo, hfw, pyInt, pyStr, bind, Except.bind, pure,
      Except.pure]
    simp

/-- Witness for C3: the concrete two-entity device of the counterexample,
through the amended theorem. -/
theorem goto_device_first_match_witness :
    from_device_ids_to_entity_ids ["dev1"] [("dev1", ⟨some "Valetudo 2024.1"⟩)]
      [⟨"vacuum.a", some "dev1", "vacuum"⟩, ⟨"vacuum.b", some "dev1", "vacuum"⟩] =
      .ok (some ["vacuum.a", "vacuum.b"]) ∧
    ∃ sd, generate_service_data_go_to none (some ["dev1"]) (some 100) (some 200)
        none [("dev1", ⟨some "Valetudo 2024.1"⟩)]
        [⟨"vacuum.a", some "dev1", "vacuum"⟩, ⟨"vacuum.b", some "dev1", "vacuum"⟩]
        [("vacuum.a", ["tango/state"]), ("vacuum.b", ["beta/state"])] =
        .ok (some sd) ∧
      sd.topic = "tango" ++ (if is_rand256_vacuum ⟨some "Valetudo 2024.1"⟩ then
                               "/custom_command"
                             else "/GoToLocationCapability/go/set") ∧
      sd.entity_id = none :=
  goto_device_first_match [("dev1", ⟨some "Valetudo 2024.1"⟩)]
    [⟨"vacuum.a", some "dev1", "vacuum"⟩, ⟨"vacuum.b", some "dev1", "vacuum"⟩]
    [("vacuum.a", ["tango/state"]), ("vacuum.b", ["beta/state"])] "dev1"
    ⟨some "Valetudo 2024.1"⟩ ⟨some "Valetudo 2024.1"⟩ "vacuum.a" "vacuum.b" []
    "tango/state" [] "tango" 100 200 rfl rfl rfl rfl rfl

/-! Section: C10: options migration is atomic -/

theorem mergeOptions_eq_none_iff {V : Type} (keys : List String)
    (bk_options new_options : List (String × V)) :
    mergeOptions keys bk_options new_options = none ↔
      ∃ k ∈ keys, optPick new_options bk_options k = none := by
  induction keys with
  | nil => simp [mergeOptions]
  | cons k ks ih =>
    simp only [mergeOptions]
    cases hk : optPick new_options bk_options k
    · simp only [List.mem_cons]
      exact ⟨fun _ => ⟨k, Or.inl rfl, hk⟩, fun _ => trivial⟩
    · simp only [Option.map_eq_none', ih, List.mem_cons]
      constructor
      · rintro ⟨k2, hk2, hnone⟩
        exact ⟨k2, Or.inr hk2, hnone⟩
      · rintro ⟨k2, hk2 | hk2, hnone⟩
        · subst hk2
          rw [hk] at hnone
          cases hnone
        · exact ⟨k2, hk2, hnone⟩

theorem mergeOptions_some_spec {V : Type} (keys : List String)
    (bk_options new_options l : List (String × V))
    (h : mergeOptions keys bk_options new_options = some l) :
    l.map Prod.fst = keys ∧
      ∀ k ∈ keys, alookup k l = optPick new_options bk_options k := by
  induction keys generalizing l with
  | nil =>
    simp only [mergeOptions, Option.some.injEq] at h
    subst h
    simp
  | cons k ks ih =>
    simp only [mergeOptions] at h
    cases hk : optPick new_options bk_options k with
    | none => rw [hk] at h; cases h
    | some v =>
      rw [hk] at h
      rcases Option.map_eq_some'.mp h with ⟨rest, hrest, hl⟩
      subst hl
      obtain ⟨hfst, hlook⟩ := ih rest hrest
      refine ⟨by simp [hfst], fun k2 hk2 => ?_⟩
      rcases List.mem_cons.mp hk2 with hk2 | hk2
      · subst hk2
        simp [alookup, hk]
      · simp only [alookup]
        by_cases he : k = k2
        · subst he
          simp [hk]
        · simp [he, hlook k2 hk2]

/-- Claim C10: `update_options` is atomic with respect to errors — if some key
of the fixed update-key list is in neither dictionary, the backup options are
returned unchanged (the partially built merge is discarded); otherwise the
result maps exactly the keys of that list, each to the new options' value when
present there and to the backup value otherwise. -/
theorem update_options_merge_spec {V : Type}
    (bk_options new_options : List (String × V)) :
    ((∃ k ∈ keys_to_update_list,
        alookup k new_options = none ∧ alookup k bk_options = none) →
      update_options keys_to_update_list bk_options new_options = bk_options) ∧
    ((∀ k ∈ keys_to_update_list,
        alookup k new_options ≠ none ∨ alookup k bk_options ≠ none) →
      (update_options keys_to_update_list bk_options new_options).map Prod.fst =
          keys_to_update_list ∧
      ∀ k ∈ keys_to_update_list,
        alookup k (update_options keys_to_update_list bk_options new_options) =
          optPick new_options bk_options k) := by
  constructor
  · rintro ⟨k, hk, hnew, hbk⟩
    have hnone : mergeOptions keys_to_update_list bk_options new_options = none := by
      rw [mergeOptions_eq_none_iff]
      exact ⟨k, hk, by simp [optPick, hnew, hbk]⟩
    simp [update_options, hnone]
  · intro hall
    cases hm : mergeOptions keys_to_update_list bk_options new_options with
    | none =>
      rw [mergeOptions_eq_none_iff] at hm
      obtain ⟨k, hk, hnone⟩ := hm
      rcases hall k hk with hnew | hbk
      · simp only [optPick] at hnone
        cases hlook : alookup k new_options with
        | none => exact absurd hlook hnew
        | some v => rw [hlook] at hnone; cases hnone
      · simp only [optPick] at hnone
        cases hlook : alookup k new_options with
        | none => rw [hlook] at hnone; exact absurd hnone hbk
        | some v => rw [hlook] at hnone; cases hnone
    | some l =>
      obtain ⟨hfst, hlook⟩ :=
        mergeOptions_some_spec keys_to_update_list bk_options new_options l hm
      rw [show update_options keys_to_update_list bk_options new_options = l by
        simp [update_options, hm]]
      exact ⟨hfst, hlook⟩

end MqttVacuum
